import Mathlib

/-!
Verification of the workout-form-optimizer core against its specification.

The development shallowly embeds the Python sources:
  - `src/features/angle_utils.py` (joint-angle geometry engine),
  - `src/data/preprocess.py` (frame sampling loop of `process_videos`),
  - `src/ui/overlays.py` (overlay renderer configuration and `feedback_text`).
Python floats are modelled as real numbers; a Python value that may be
`None` is modelled as `Option`; a Python tuple of coordinates is modelled
as `List ℝ` (the length checks of the source are kept).
-/

open Classical

noncomputable section AngleEngine

/-- Model of `np.clip(x, -1.0, 1.0)`: values below -1 are raised to -1,
values above 1 are lowered to 1. -/
def clip (x : ℝ) : ℝ := min (max x (-1)) 1

/-- The validation and cosine part of `compute_angle` from
`src/features/angle_utils.py` (lines 24-50): checks that each point is
present and has at least two coordinates, forms the 2D vectors
`(a - b)` and `(c - b)` from the first two coordinates, returns `none`
when either vector has zero norm, and otherwise returns the cosine of
the angle (dot product over the product of norms) clipped to `[-1, 1]`.
-/
def cosineAt (a b c : Option (List ℝ)) : Option ℝ :=
  match a, b, c with
  | some la, some lb, some lc =>
    if la.length < 2 ∨ lb.length < 2 ∨ lc.length < 2 then none
    else
      if Real.sqrt ((la.getD 0 0 - lb.getD 0 0) ^ 2 + (la.getD 1 0 - lb.getD 1 0) ^ 2) = 0
         ∨ Real.sqrt ((lc.getD 0 0 - lb.getD 0 0) ^ 2 + (lc.getD 1 0 - lb.getD 1 0) ^ 2) = 0 then
        none
      else
        some (clip (((la.getD 0 0 - lb.getD 0 0) * (lc.getD 0 0 - lb.getD 0 0)
                     + (la.getD 1 0 - lb.getD 1 0) * (lc.getD 1 0 - lb.getD 1 0))
                    / (Real.sqrt ((la.getD 0 0 - lb.getD 0 0) ^ 2 + (la.getD 1 0 - lb.getD 1 0) ^ 2)
                       * Real.sqrt ((lc.getD 0 0 - lb.getD 0 0) ^ 2 + (lc.getD 1 0 - lb.getD 1 0) ^ 2))))
  | _, _, _ => none

/-- `compute_angle` from `src/features/angle_utils.py`: the angle at
vertex `b` between vectors `(a - b)` and `(c - b)`, in degrees
(`np.degrees (np.arccos cosine)`), or `none` on invalid or degenerate
input. -/
def compute_angle (a b c : Option (List ℝ)) : Option ℝ :=
  (cosineAt a b c).map fun t => Real.arccos t * (180 / Real.pi)

end AngleEngine

/-- `compute_knee_angle` from `src/features/angle_utils.py`: looks up
`hip`, `knee`, `ankle` in the joint map, returns `none` if any key is
missing, any value is `None`, or any value has fewer than two
coordinates, and otherwise delegates to `compute_angle`. The joint map
(a Python dict) is modelled as an association list. -/
noncomputable def compute_knee_angle
    (joints : Option (List (String × Option (List ℝ)))) : Option ℝ :=
  match joints with
  | none => none
  | some js =>
    match js.lookup "hip", js.lookup "knee", js.lookup "ankle" with
    | some hip, some knee, some ankle =>
      match hip, knee, ankle with
      | some lh, some lk, some la =>
        if lh.length < 2 ∨ lk.length < 2 ∨ la.length < 2 then none
        else compute_angle (some lh) (some lk) (some la)
      | _, _, _ => none
    | _, _, _ => none

/-- `compute_hip_angle` from `src/features/angle_utils.py`: same
validation as `compute_knee_angle` over the keys `shoulder`, `hip`,
`knee`, delegating to `compute_angle shoulder hip knee`. -/
noncomputable def compute_hip_angle
    (joints : Option (List (String × Option (List ℝ)))) : Option ℝ :=
  match joints with
  | none => none
  | some js =>
    match js.lookup "shoulder", js.lookup "hip", js.lookup "knee" with
    | some shoulder, some hip, some knee =>
      match shoulder, hip, knee with
      | some ls, some lh, some lk =>
        if ls.length < 2 ∨ lh.length < 2 ∨ lk.length < 2 then none
        else compute_angle (some ls) (some lh) (some lk)
      | _, _, _ => none
    | _, _, _ => none

/-- `compute_back_angle` from `src/features/angle_utils.py`: same
validation as `compute_knee_angle` over the keys `shoulder`, `hip`,
`ankle`, delegating to `compute_angle shoulder hip ankle`. -/
noncomputable def compute_back_angle
    (joints : Option (List (String × Option (List ℝ)))) : Option ℝ :=
  match joints with
  | none => none
  | some js =>
    match js.lookup "shoulder", js.lookup "hip", js.lookup "ankle" with
    | some shoulder, some hip, some ankle =>
      match shoulder, hip, ankle with
      | some ls, some lh, some la =>
        if ls.length < 2 ∨ lh.length < 2 ∨ la.length < 2 then none
        else compute_angle (some ls) (some lh) (some la)
      | _, _, _ => none
    | _, _, _ => none

/-- Every value produced by `clip` lies in `[-1, 1]`. -/
theorem clip_mem (x : ℝ) : -1 ≤ clip x ∧ clip x ≤ 1 := by
  constructor
  · exact le_min (le_max_right x (-1)) (by norm_num)
  · exact min_le_right _ 1

/-- C8: for the collinear configuration a=(0,0), b=(1,0), c=(2,0), the
vectors (a-b)=(-1,0) and (c-b)=(1,0) point in opposite directions and
`compute_angle` returns 180 degrees. -/
theorem compute_angle_collinear_opposite :
    compute_angle (some [0, 0]) (some [1, 0]) (some [2, 0]) = some 180 := by
  have hcos : cosineAt (some [0, 0]) (some [1, 0]) (some [2, 0]) = some (-1) := by
    simp only [cosineAt, List.getD, List.length_cons, List.length_nil]
    norm_num [clip]
  simp only [compute_angle, hcos, Option.map]
  have : Real.arccos (-1) * (180 / Real.pi) = 180 := by
    rw [Real.arccos_neg_one, mul_div_assoc', mul_comm, mul_div_assoc,
      div_self Real.pi_ne_zero, mul_one]
  rw [this]

/-- Degrees of an arccosine always lie in [0, 180]. -/
theorem degrees_arccos_mem (t : ℝ) :
    0 ≤ Real.arccos t * (180 / Real.pi) ∧ Real.arccos t * (180 / Real.pi) ≤ 180 := by
  have hpi : (0 : ℝ) < 180 / Real.pi := by positivity
  constructor
  · exact mul_nonneg (Real.arccos_nonneg t) hpi.le
  · calc Real.arccos t * (180 / Real.pi)
        ≤ Real.pi * (180 / Real.pi) :=
          mul_le_mul_of_nonneg_right (Real.arccos_le_pi t) hpi.le
      _ = 180 := by field_simp

/-- A nonzero 2D vector has nonzero Euclidean norm. -/
theorem sqrt_sumsq_ne_zero {x y : ℝ} (h : ¬(x = 0 ∧ y = 0)) :
    Real.sqrt (x ^ 2 + y ^ 2) ≠ 0 := by
  have hpos : 0 < x ^ 2 + y ^ 2 := by
    rcases not_and_or.mp h with h | h
    · have := sq_nonneg y
      have := sq_pos_of_ne_zero h
      linarith
    · have := sq_nonneg x
      have := sq_pos_of_ne_zero h
      linarith
  exact (Real.sqrt_ne_zero'.mpr hpos)

/-- C4: for coincident points (a = b or b = c, a zero-length vector),
`compute_angle` returns `none`; the model is a total function, so no
exception and no NaN can arise. -/
theorem compute_angle_coincident (a b c : Option (List ℝ)) (h : a = b ∨ b = c) :
    compute_angle a b c = none := by
  have hc : cosineAt a b c = none := by
    rcases a with _ | la <;> rcases b with _ | lb <;> rcases c with _ | lc <;> try rfl
    simp only [cosineAt]
    by_cases hlen : la.length < 2 ∨ lb.length < 2 ∨ lc.length < 2
    · rw [if_pos hlen]
    · rw [if_neg hlen, if_pos]
      rcases h with h | h
      · have hab : la = lb := by injection h
        subst hab
        left
        norm_num
      · have hbc : lb = lc := by injection h
        subst hbc
        right
        norm_num
  simp [compute_angle, hc]

/-- Witness for `compute_angle_coincident` at a = b = (1,2), c = (3,4). -/
theorem compute_angle_coincident_witness :
    compute_angle (some [1, 2]) (some [1, 2]) (some [3, 4]) = none :=
  compute_angle_coincident _ _ _ (Or.inl rfl)

/-- C3: on a triple that passes validation (all points present with at
least two coordinates) and whose two vectors (a-b), (c-b) are nonzero,
`compute_angle` returns a present value in [0, 180] degrees. -/
theorem compute_angle_valid_range (la lb lc : List ℝ)
    (h1 : 2 ≤ la.length) (h2 : 2 ≤ lb.length) (h3 : 2 ≤ lc.length)
    (hv1 : ¬(la.getD 0 0 - lb.getD 0 0 = 0 ∧ la.getD 1 0 - lb.getD 1 0 = 0))
    (hv2 : ¬(lc.getD 0 0 - lb.getD 0 0 = 0 ∧ lc.getD 1 0 - lb.getD 1 0 = 0)) :
    ∃ θ, compute_angle (some la) (some lb) (some lc) = some θ ∧ 0 ≤ θ ∧ θ ≤ 180 := by
  have hn1 := sqrt_sumsq_ne_zero hv1
  have hn2 := sqrt_sumsq_ne_zero hv2
  have hc : ∃ t, cosineAt (some la) (some lb) (some lc) = some t := by
    simp only [cosineAt]
    rw [if_neg (by omega), if_neg (by push_neg; exact ⟨hn1, hn2⟩)]
    exact ⟨_, rfl⟩
  obtain ⟨t, ht⟩ := hc
  refine ⟨Real.arccos t * (180 / Real.pi), ?_, degrees_arccos_mem t⟩
  simp [compute_angle, ht]

/-- Witness for `compute_angle_valid_range` at the right-angle
configuration a=(0,1), b=(0,0), c=(1,0). -/
theorem compute_angle_valid_range_witness :
    2 ≤ ([(0 : ℝ), 1]).length ∧
      ∃ θ, compute_angle (some [(0 : ℝ), 1]) (some [0, 0]) (some [1, 0]) = some θ ∧
        0 ≤ θ ∧ θ ≤ 180 :=
  ⟨by norm_num,
    compute_angle_valid_range [0, 1] [0, 0] [1, 0] (by norm_num) (by norm_num) (by norm_num)
      (by norm_num [List.getD]) (by norm_num [List.getD])⟩

/-- C6: whenever the cosine stage of `compute_angle` produces a value,
that value (the clipped cosine) lies in [-1, 1], and the arccosine step
of `compute_angle` is applied exactly to it, so the inverse cosine is
always evaluated on an in-domain argument. -/
theorem cosineAt_clamped (a b c : Option (List ℝ)) (x : ℝ)
    (h : cosineAt a b c = some x) :
    (-1 ≤ x ∧ x ≤ 1) ∧ compute_angle a b c = some (Real.arccos x * (180 / Real.pi)) := by
  refine ⟨?_, by simp [compute_angle, h]⟩
  rcases a with _ | la
  · simp [cosineAt] at h
  rcases b with _ | lb
  · simp [cosineAt] at h
  rcases c with _ | lc
  · simp [cosineAt] at h
  simp only [cosineAt] at h
  split at h
  · exact absurd h (by simp)
  · split at h
    · exact absurd h (by simp)
    · rw [← Option.some.inj h]
      exact clip_mem _

/-- Witness for `cosineAt_clamped` at the right-angle configuration
a=(0,1), b=(0,0), c=(1,0), whose clipped cosine is 0. -/
theorem cosineAt_clamped_witness :
    ((-1 : ℝ) ≤ 0 ∧ (0 : ℝ) ≤ 1) ∧
      compute_angle (some [(0 : ℝ), 1]) (some [0, 0]) (some [1, 0]) =
        some (Real.arccos 0 * (180 / Real.pi)) :=
  cosineAt_clamped _ _ _ 0 (by
    simp only [cosineAt, List.getD, List.length_cons, List.length_nil]
    norm_num [clip])

/-- C10: `compute_angle` reads only the first two coordinates of each
point: two valid triples agreeing on x and y pairwise (arbitrary z)
give the same result. -/
theorem compute_angle_ignores_z (la lb lc ma mb mc : List ℝ)
    (h1 : 2 ≤ la.length) (h2 : 2 ≤ lb.length) (h3 : 2 ≤ lc.length)
    (h4 : 2 ≤ ma.length) (h5 : 2 ≤ mb.length) (h6 : 2 ≤ mc.length)
    (ea0 : la.getD 0 0 = ma.getD 0 0) (ea1 : la.getD 1 0 = ma.getD 1 0)
    (eb0 : lb.getD 0 0 = mb.getD 0 0) (eb1 : lb.getD 1 0 = mb.getD 1 0)
    (ec0 : lc.getD 0 0 = mc.getD 0 0) (ec1 : lc.getD 1 0 = mc.getD 1 0) :
    compute_angle (some la) (some lb) (some lc)
      = compute_angle (some ma) (some mb) (some mc) := by
  have hL : ¬(la.length < 2 ∨ lb.length < 2 ∨ lc.length < 2) := by omega
  have hM : ¬(ma.length < 2 ∨ mb.length < 2 ∨ mc.length < 2) := by omega
  have hc : cosineAt (some la) (some lb) (some lc)
      = cosineAt (some ma) (some mb) (some mc) := by
    simp only [cosineAt]
    rw [ea0, ea1, eb0, eb1, ec0, ec1, if_neg hL, if_neg hM]
  simp [compute_angle, hc]

/-- Witness for `compute_angle_ignores_z`: the triples differ only in
their z coordinates. -/
theorem compute_angle_ignores_z_witness :
    ([(0 : ℝ), 1, 5].getD 0 0 = [(0 : ℝ), 1, 9].getD 0 0) ∧
      compute_angle (some [(0 : ℝ), 1, 5]) (some [1, 1, 2]) (some [2, 0, 7])
        = compute_angle (some [(0 : ℝ), 1, 9]) (some [1, 1]) (some [2, 0, 3]) :=
  ⟨by norm_num [List.getD],
    compute_angle_ignores_z [0, 1, 5] [1, 1, 2] [2, 0, 7] [0, 1, 9] [1, 1] [2, 0, 3]
      (by norm_num) (by norm_num) (by norm_num) (by norm_num) (by norm_num) (by norm_num)
      (by norm_num [List.getD]) (by norm_num [List.getD]) (by norm_num [List.getD])
      (by norm_num [List.getD]) (by norm_num [List.getD]) (by norm_num [List.getD])⟩

/-- C5: each named-angle function returns `none` as soon as any one of
its three required keys is missing from the joint map, whatever the
other entries hold; the models are total functions, so no exception can
arise. -/
theorem named_angles_missing_key (js : List (String × Option (List ℝ))) :
    (js.lookup "hip" = none ∨ js.lookup "knee" = none ∨ js.lookup "ankle" = none →
      compute_knee_angle (some js) = none) ∧
    (js.lookup "shoulder" = none ∨ js.lookup "hip" = none ∨ js.lookup "knee" = none →
      compute_hip_angle (some js) = none) ∧
    (js.lookup "shoulder" = none ∨ js.lookup "hip" = none ∨ js.lookup "ankle" = none →
      compute_back_angle (some js) = none) := by
  refine ⟨fun h => ?_, fun h => ?_, fun h => ?_⟩
  · cases hh : js.lookup "hip" <;> cases hk : js.lookup "knee" <;>
      cases ha : js.lookup "ankle" <;>
      simp only [compute_knee_angle, hh, hk, ha] <;> simp_all
  · cases hs : js.lookup "shoulder" <;> cases hh : js.lookup "hip" <;>
      cases hk : js.lookup "knee" <;>
      simp only [compute_hip_angle, hs, hh, hk] <;> simp_all
  · cases hs : js.lookup "shoulder" <;> cases hh : js.lookup "hip" <;>
      cases ha : js.lookup "ankle" <;>
      simp only [compute_back_angle, hs, hh, ha] <;> simp_all

/-- A joint map with valid `knee`, `ankle` and `shoulder` entries but no
`hip` key, used to witness `named_angles_missing_key`. -/
def jsW : List (String × Option (List ℝ)) :=
  [("knee", some [0, 0]), ("ankle", some [1, 1]), ("shoulder", some [2, 2])]

/-- Witness for `named_angles_missing_key`: with `hip` absent all three
named angles are absent, although the other entries are fully valid. -/
theorem named_angles_missing_key_witness :
    jsW.lookup "hip" = none ∧
      compute_knee_angle (some jsW) = none ∧
      compute_hip_angle (some jsW) = none ∧
      compute_back_angle (some jsW) = none :=
  ⟨rfl, (named_angles_missing_key jsW).1 (Or.inl rfl),
    (named_angles_missing_key jsW).2.1 (Or.inr (Or.inl rfl)),
    (named_angles_missing_key jsW).2.2 (Or.inr (Or.inl rfl))⟩

/-- The default joint-connection topology list of `Overlays.__init__`
in `src/ui/overlays.py` (`self.connections`), in source order. -/
def connections : List (String × String) :=
  [("LEFT_SHOULDER", "RIGHT_SHOULDER"),
   ("LEFT_SHOULDER", "LEFT_ELBOW"),
   ("LEFT_ELBOW", "LEFT_WRIST"),
   ("RIGHT_SHOULDER", "RIGHT_ELBOW"),
   ("RIGHT_ELBOW", "RIGHT_WRIST"),
   ("LEFT_SHOULDER", "LEFT_HIP"),
   ("RIGHT_SHOULDER", "RIGHT_HIP"),
   ("LEFT_HIP", "RIGHT_HIP"),
   ("LEFT_HIP", "LEFT_KNEE"),
   ("LEFT_KNEE", "LEFT_ANKLE"),
   ("RIGHT_HIP", "RIGHT_KNEE"),
   ("RIGHT_KNEE", "RIGHT_ANKLE"),
   ("LEFT_ANKLE", "LEFT_HEEL"),
   ("LEFT_HEEL", "LEFT_FOOT_INDEX"),
   ("RIGHT_ANKLE", "RIGHT_HEEL"),
   ("RIGHT_HEEL", "RIGHT_FOOT_INDEX"),
   ("NOSE", "LEFT_EYE"),
   ("NOSE", "RIGHT_EYE"),
   ("LEFT_EYE", "LEFT_EAR"),
   ("RIGHT_EYE", "RIGHT_EAR")]

/-- C2 counterexample: the default connection list does not have 18
entries. -/
theorem connections_length_ne_18 : connections.length ≠ 18 := by decide

/-- C2 (amended): the default connection list contains exactly 20
anatomical joint-name pairs, and it does span the upper body, torso,
legs, feet and face. -/
theorem connections_length_20 :
    connections.length = 20 ∧
      ("LEFT_ELBOW", "LEFT_WRIST") ∈ connections ∧
      ("LEFT_HIP", "RIGHT_HIP") ∈ connections ∧
      ("LEFT_KNEE", "LEFT_ANKLE") ∈ connections ∧
      ("LEFT_HEEL", "LEFT_FOOT_INDEX") ∈ connections ∧
      ("NOSE", "LEFT_EYE") ∈ connections := by
  refine ⟨rfl, ?_, ?_, ?_, ?_, ?_⟩ <;> decide

/-- The text-origin computation of `Overlays.feedback_text` in
`src/ui/overlays.py`: with `height, width = frame.shape` and a rendered
text width from the font metrics, the x origin is
`int((width - text_width) // 2)` (Python floor division) and the y
origin is `int(height - height / 10)` (true division, truncated; the
value is nonnegative, so truncation is the floor). -/
def feedback_text_origin (height width text_width : ℕ) : ℤ × ℤ :=
  (((width : ℤ) - (text_width : ℤ)).fdiv 2,
   Int.floor ((height : ℚ) - (height : ℚ) / 10))

/-- C9: `feedback_text` places the message at x equal to
(width - text_width)/2 up to integer rounding (the origin is the floor
of that quotient) and at y equal to 90% of the frame height from the
top, i.e. the floor of height - height/10 = 9·height/10. -/
theorem feedback_text_centered (height width text_width : ℕ) :
    2 * (feedback_text_origin height width text_width).1 ≤ (width : ℤ) - text_width ∧
    (width : ℤ) - text_width < 2 * (feedback_text_origin height width text_width).1 + 2 ∧
    10 * (feedback_text_origin height width text_width).2 ≤ 9 * (height : ℤ) ∧
    9 * (height : ℤ) < 10 * ((feedback_text_origin height width text_width).2 + 1) := by
  have hx : (feedback_text_origin height width text_width).1
      = ((width : ℤ) - (text_width : ℤ)) / 2 :=
    Int.fdiv_eq_ediv _ (by norm_num)
  have hfl : (feedback_text_origin height width text_width).2
      = Int.floor ((height : ℚ) - (height : ℚ) / 10) := rfl
  have h1 : ((feedback_text_origin height width text_width).2 : ℚ)
      ≤ (height : ℚ) - (height : ℚ) / 10 := by
    rw [hfl]; exact Int.floor_le _
  have h2 : (height : ℚ) - (height : ℚ) / 10
      < (feedback_text_origin height width text_width).2 + 1 := by
    rw [hfl]; exact Int.lt_floor_add_one _
  refine ⟨?_, ?_, ?_, ?_⟩
  · rw [hx]; omega
  · rw [hx]; omega
  · have : (10 * (feedback_text_origin height width text_width).2 : ℚ)
        ≤ 9 * (height : ℚ) := by linarith
    exact_mod_cast this
  · have : (9 * (height : ℚ))
        < 10 * ((feedback_text_origin height width text_width).2 + 1 : ℚ) := by linarith
    exact_mod_cast this

/-- Witness for `feedback_text_centered` on a 480x640 frame and a
100-pixel-wide message (origin (270, 432)). -/
theorem feedback_text_centered_witness :
    2 * (feedback_text_origin 480 640 100).1 ≤ (640 : ℤ) - 100 ∧
    (640 : ℤ) - 100 < 2 * (feedback_text_origin 480 640 100).1 + 2 ∧
    10 * (feedback_text_origin 480 640 100).2 ≤ 9 * (480 : ℤ) ∧
    9 * (480 : ℤ) < 10 * ((feedback_text_origin 480 640 100).2 + 1) :=
  feedback_text_centered 480 640 100

/-- A video frame: pixel grid dimensions plus an abstract content tag. -/
structure PyFrame where
  width : ℕ
  height : ℕ
  data : ℕ
deriving DecidableEq

/-- `IMAGE_SIZE` from `src/data/preprocess.py`: the target resolution
(width, height) every kept frame is resized to. -/
def IMAGE_SIZE : ℕ × ℕ := (224, 224)

/-- `FRAME_SKIP` from `src/data/preprocess.py`: the sampling interval. -/
def FRAME_SKIP : ℕ := 10

/-- Model of `cv2.resize(frame, size)`: the output frame has exactly the
requested dimensions (aspect ratio not preserved), same content tag. -/
def resizeFrame (f : PyFrame) (size : ℕ × ℕ) : PyFrame :=
  { width := size.1, height := size.2, data := f.data }

/-- One frame written by the sampling loop: the `frame_<saved_count>.jpg`
file name, the value of `saved_count` at the write, the value of the raw
decode counter `count` at the write, and the resized frame itself. -/
structure SavedFrame where
  filename : String
  savedIdx : ℕ
  rawIdx : ℕ
  frame : PyFrame

/-- The `while True` loop of `process_videos` in
`src/data/preprocess.py` (lines 61-86): reads frames in order until the
stream is exhausted, keeps a frame when `count % FRAME_SKIP == 0`,
resizes it to `IMAGE_SIZE`, writes it as `frame_<saved_count>.jpg`, and
increments `saved_count` on save and `count` on every decoded frame. -/
def processLoop : List PyFrame → ℕ → ℕ → List SavedFrame
  | [], _, _ => []
  | f :: rest, count, saved =>
    if count % FRAME_SKIP = 0 then
      { filename := "frame_" ++ toString saved ++ ".jpg",
        savedIdx := saved, rawIdx := count,
        frame := resizeFrame f IMAGE_SIZE } :: processLoop rest (count + 1) (saved + 1)
    else processLoop rest (count + 1) saved

/-- Per-video sampling of `process_videos` in `src/data/preprocess.py`.
`cv2.VideoCapture` never raises on an unopenable source; its `read`
simply returns `success = False` at once, so the decode stream of an
unopened capture is empty. The source contains no raise statement, so
the embedding as `Except` has no error path: every run returns `ok`
with the saved frames of the loop started at `count = 0`,
`saved_count = 0`. -/
def processVideo (opened : Bool) (frames : List PyFrame) :
    Except String (List SavedFrame) :=
  Except.ok (processLoop (if opened then frames else []) 0 0)

/-- C1 counterexample: on a source that cannot be opened (here holding
one decodable frame behind the failed open), per-video sampling does
not fail with any error: it returns `ok` with an empty saved list. -/
theorem processVideo_unopened_cex :
    processVideo false [{ width := 640, height := 480, data := 7 }] = Except.ok [] := rfl

/-- C1 (amended): for every video source that cannot be opened, the
per-video sampling of `process_videos` raises no error at all; it
completes normally and saves zero frames, so the failure is silent
rather than surfaced at construction. -/
theorem processVideo_unopened_silent (frames : List PyFrame) :
    processVideo false frames = Except.ok [] := rfl

/-- A list of length n + 1 splits into a head and a tail of length n. -/
theorem list_length_succ {A : Type} (l : List A) (n : ℕ) (h : l.length = n + 1) :
    ∃ a t, l = a :: t ∧ t.length = n := by
  cases l with
  | nil => simp at h
  | cons a t => exact ⟨a, t, rfl, by simpa using h⟩

/-- C7: over a source of exactly 25 decodable frames, the sampling loop
(interval `FRAME_SKIP = 10`) saves exactly 3 frames, with saved indices
0, 1, 2 (file names frame_0.jpg, frame_1.jpg, frame_2.jpg) taken at raw
decode positions 0, 10, 20, each resized to `IMAGE_SIZE`. -/
theorem processLoop_25_frames (frames : List PyFrame) (h : frames.length = 25) :
    (processLoop frames 0 0).length = 3 ∧
    (processLoop frames 0 0).map SavedFrame.savedIdx = [0, 1, 2] ∧
    (processLoop frames 0 0).map SavedFrame.rawIdx = [0, 10, 20] ∧
    (processLoop frames 0 0).map SavedFrame.filename
      = ["frame_0.jpg", "frame_1.jpg", "frame_2.jpg"] ∧
    ∀ r ∈ processLoop frames 0 0,
      r.frame.width = IMAGE_SIZE.1 ∧ r.frame.height = IMAGE_SIZE.2 := by
  obtain ⟨f0, frames, rfl, h0⟩ := list_length_succ frames 24 h
  obtain ⟨f1, frames, rfl, h1⟩ := list_length_succ frames 23 h0
  obtain ⟨f2, frames, rfl, h2⟩ := list_length_succ frames 22 h1
  obtain ⟨f3, frames, rfl, h3⟩ := list_length_succ frames 21 h2
  obtain ⟨f4, frames, rfl, h4⟩ := list_length_succ frames 20 h3
  obtain ⟨f5, frames, rfl, h5⟩ := list_length_succ frames 19 h4
  obtain ⟨f6, frames, rfl, h6⟩ := list_length_succ frames 18 h5
  obtain ⟨f7, frames, rfl, h7⟩ := list_length_succ frames 17 h6
  obtain ⟨f8, frames, rfl, h8⟩ := list_length_succ frames 16 h7
  obtain ⟨f9, frames, rfl, h9⟩ := list_length_succ frames 15 h8
  obtain ⟨f10, frames, rfl, h10⟩ := list_length_succ frames 14 h9
  obtain ⟨f11, frames, rfl, h11⟩ := list_length_succ frames 13 h10
  obtain ⟨f12, frames, rfl, h12⟩ := list_length_succ frames 12 h11
  obtain ⟨f13, frames, rfl, h13⟩ := list_length_succ frames 11 h12
  obtain ⟨f14, frames, rfl, h14⟩ := list_length_succ frames 10 h13
  obtain ⟨f15, frames, rfl, h15⟩ := list_length_succ frames 9 h14
  obtain ⟨f16, frames, rfl, h16⟩ := list_length_succ frames 8 h15
  obtain ⟨f17, frames, rfl, h17⟩ := list_length_succ frames 7 h16
  obtain ⟨f18, frames, rfl, h18⟩ := list_length_succ frames 6 h17
  obtain ⟨f19, frames, rfl, h19⟩ := list_length_succ frames 5 h18
  obtain ⟨f20, frames, rfl, h20⟩ := list_length_succ frames 4 h19
  obtain ⟨f21, frames, rfl, h21⟩ := list_length_succ frames 3 h20
  obtain ⟨f22, frames, rfl, h22⟩ := list_length_succ frames 2 h21
  obtain ⟨f23, frames, rfl, h23⟩ := list_length_succ frames 1 h22
  obtain ⟨f24, frames, rfl, h24⟩ := list_length_succ frames 0 h23
  obtain rfl : frames = [] := List.length_eq_zero.mp h24
  refine ⟨?_, ?_, ?_, ?_, ?_⟩ <;>
    simp [processLoop, FRAME_SKIP, resizeFrame, IMAGE_SIZE] <;> try decide

/-- Witness for `processLoop_25_frames` on a synthetic 25-frame source
of 640x480 frames. -/
theorem processLoop_25_frames_witness :
    ((List.range 25).map fun i => PyFrame.mk 640 480 i).length = 25 ∧
      ((processLoop ((List.range 25).map fun i => PyFrame.mk 640 480 i) 0 0).length = 3 ∧
       (processLoop ((List.range 25).map fun i => PyFrame.mk 640 480 i) 0 0).map
           SavedFrame.savedIdx = [0, 1, 2] ∧
       (processLoop ((List.range 25).map fun i => PyFrame.mk 640 480 i) 0 0).map
           SavedFrame.rawIdx = [0, 10, 20] ∧
       (processLoop ((List.range 25).map fun i => PyFrame.mk 640 480 i) 0 0).map
           SavedFrame.filename = ["frame_0.jpg", "frame_1.jpg", "frame_2.jpg"] ∧
       ∀ r ∈ processLoop ((List.range 25).map fun i => PyFrame.mk 640 480 i) 0 0,
         r.frame.width = IMAGE_SIZE.1 ∧ r.frame.height = IMAGE_SIZE.2) :=
  ⟨by decide, processLoop_25_frames _ (by decide)⟩
